import Mathlib

/-!
Verification development for the RIS_Simulator repository.

The available sources are the README (physics-model documentation), the
frontend `App.jsx`, `ConfigPanel.jsx`, `Viewport3D.jsx` and `Dashboard.jsx`
(the latter also contains the `Heatmap` component).  The backend Python
engine (`backend/main.py`, `backend/physics/{ellingson,channel,mobility,usrp}.py`)
is not among the sources; where a property depends on it, the corresponding
definition is modelled from the specification and marked as such in its
doc comment.

Numeric JavaScript values that are compared or computed exactly are
embedded as rationals (`ℚ`); analytically specified physics (logarithms,
trigonometry) uses `ℝ`.
-/

namespace RISSim

/-- 3D position with exact rational coordinates, as carried in the frontend
config objects (`pos: [x, y, z]`). -/
structure Vec3 where
  x : ℚ
  y : ℚ
  z : ℚ
  deriving DecidableEq, Repr

/-- 3D vector of reals, used for RIS panel rotations, whose values in the
source include multiples of `Math.PI`. -/
structure RVec3 where
  x : ℝ
  y : ℝ
  z : ℝ

/-- Transmitter node, from the frontend config: `{ id, pos, power_dbm }`. -/
structure TxNode where
  id : String
  pos : Vec3
  power_dbm : ℚ
  deriving DecidableEq, Repr

/-- Receiver node, from the frontend config: `{ id, pos }`. -/
structure RxNode where
  id : String
  pos : Vec3
  deriving DecidableEq, Repr

/-- RIS node, from the frontend config:
`{ id, pos, rotation, size, elements, phase? }`; `rotation` and `elements`
are optional in some source objects, `phase` appears only in the Ellingson
experimental scenario. -/
structure RISNode where
  id : String
  pos : Vec3
  rotation : Option RVec3
  size : ℚ
  elements : Option ℕ
  phase : Option ℚ

/-- The frontend session configuration (`config` state in `App.jsx`,
merged with scenario presets from `ConfigPanel.jsx`).  Scalar fields that
may be absent from a given config object are `Option`s. -/
structure AppConfig where
  tx_nodes : List TxNode
  rx_nodes : List RxNode
  ris_nodes : List RISNode
  frequency_ghz : Option ℚ
  ris_bits : Option ℕ
  cfo : Option ℚ
  rx_mobility : Option String
  tx_power_dbm : Option ℚ
  phase_coherence : Option ℚ

/-- JavaScript `v || d` on a possibly-absent numeric field: `undefined`
and `0` are falsy, so both are replaced by the default `d`. -/
def jsOrQ : Option ℚ → ℚ → ℚ
  | none, d => d
  | some v, d => if v = 0 then d else v

/-- JavaScript `v || d` on a possibly-absent nonnegative-integer field. -/
def jsOrNat : Option ℕ → ℕ → ℕ
  | none, d => d
  | some v, d => if v = 0 then d else v

/-- The Tx node literal shared by the initial config in `App.jsx` and the
`basic` preset in `ConfigPanel.jsx`:
`{ id: 'BS-1', pos: [0, 5, 0], power_dbm: 20 }`. -/
def basicTx : TxNode := ⟨"BS-1", ⟨0, 5, 0⟩, 20⟩

/-- `{ id: 'UE-1', pos: [5, 1.5, 5] }`. -/
def basicRx : RxNode := ⟨"UE-1", ⟨5, 3/2, 5⟩⟩

/-- `{ id: 'RIS-1', pos: [2.5, 2.5, 2.5], rotation: [0, -Math.PI / 4, 0],
size: 0.4, elements: 40 }`. -/
noncomputable def basicRIS : RISNode :=
  ⟨"RIS-1", ⟨5/2, 5/2, 5/2⟩, some ⟨0, -(Real.pi / 4), 0⟩, 2/5, some 40, none⟩

/-- The initial session configuration from `App.jsx` (`useState({...})`):
one Tx `BS-1` at (0,5,0) with 20 dBm, one Rx `UE-1` at (5,1.5,5), one RIS
`RIS-1` at (2.5,2.5,2.5) rotated `[0, -Math.PI/4, 0]` with size 0.4 and 40
elements, frequency 3.5 GHz, `ris_bits: 2`, `cfo: 0`,
`rx_mobility: 'static'`; no `tx_power_dbm` and no `phase_coherence` key. -/
noncomputable def initialConfig : AppConfig where
  tx_nodes := [basicTx]
  rx_nodes := [basicRx]
  ris_nodes := [basicRIS]
  frequency_ghz := some (7/2)
  ris_bits := some 2
  cfo := some 0
  rx_mobility := some "static"
  tx_power_dbm := none
  phase_coherence := none

/-- The `basic` scenario preset from `ConfigPanel.jsx` (`SCENARIOS[0].config`):
the same three node literals and frequency as the initial config, and no
other key (in particular neither `ris_bits` nor `phase_coherence`). -/
noncomputable def basicScenarioCfg : AppConfig where
  tx_nodes := [basicTx]
  rx_nodes := [basicRx]
  ris_nodes := [basicRIS]
  frequency_ghz := some (7/2)
  ris_bits := none
  cfo := none
  rx_mobility := none
  tx_power_dbm := none
  phase_coherence := none

/-- A config with no nodes at all, used as a concrete guard-failure input. -/
def emptyConfig : AppConfig where
  tx_nodes := []
  rx_nodes := []
  ris_nodes := []
  frequency_ghz := none
  ris_bits := none
  cfo := none
  rx_mobility := none
  tx_power_dbm := none
  phase_coherence := none

/-! ## Heatmap request generation (`Heatmap` component in `Dashboard.jsx`) -/

/-- The body of the POST to `/api/heatmap` built in `generateHeatmap`. -/
structure HeatmapRequest where
  tx_pos : Vec3
  ris_pos : Vec3
  ris_rotation : RVec3
  grid_size : ℕ
  grid_extent : ℚ
  height : ℚ
  n_elements : ℕ
  frequency_ghz : ℚ
  tx_power_dbm : ℚ
  phase_coherence : ℚ

/-- The component state touched by `generateHeatmap`: the last displayed
heatmap data, the error message, and the loading flag. -/
structure GenState where
  heatmapData : Option (List (List ℚ))
  error : Option String
  loading : Bool

/-- `Math.max(Math.abs(pos[0]), Math.abs(pos[2]))` for one node. -/
def nodeXZ (p : Vec3) : ℚ := max |p.x| |p.z|

/-- `allNodes = [...tx_nodes, ...rx_nodes, ...ris_nodes]`, positions only. -/
def allPositions (cfg : AppConfig) : List Vec3 :=
  cfg.tx_nodes.map (·.pos) ++ cfg.rx_nodes.map (·.pos) ++ cfg.ris_nodes.map (·.pos)

/-- The `forEach` accumulation in `getGridExtent`: start from `maxDist = 10`
and replace it whenever a node's `max(|x|,|z|)` strictly exceeds it. -/
def maxNodeDist (cfg : AppConfig) : ℚ :=
  (allPositions cfg).foldl (fun m p => if m < nodeXZ p then nodeXZ p else m) 10

/-- `getGridExtent` from the `Heatmap` component: returns 5 when zoom-on-RIS
is active and a RIS exists, otherwise `Math.ceil(maxDist * 1.3)`. -/
def getGridExtent (cfg : AppConfig) (zoomOnRIS : Bool) : ℚ :=
  if zoomOnRIS && !cfg.ris_nodes.isEmpty then 5
  else ((⌈(13/10 : ℚ) * maxNodeDist cfg⌉ : ℤ) : ℚ)

/-- The request object literal in `generateHeatmap`, for the first Tx node
and first RIS node (the source indexes `[0]` after its guard).  `||`
defaults follow the JavaScript semantics: `rotation || [0,0,0]` only
replaces an absent array, while the numeric fields also replace a
configured 0. -/
def buildHeatmapRequest (tx : TxNode) (ris : RISNode) (cfg : AppConfig)
    (zoomOnRIS : Bool) : HeatmapRequest where
  tx_pos := tx.pos
  ris_pos := ris.pos
  ris_rotation := ris.rotation.getD ⟨0, 0, 0⟩
  grid_size := 80
  grid_extent := getGridExtent cfg zoomOnRIS
  height := 3/2
  n_elements := jsOrNat ris.elements 40
  frequency_ghz := jsOrQ cfg.frequency_ghz (11/2)
  tx_power_dbm := jsOrQ cfg.tx_power_dbm 20
  phase_coherence := jsOrQ cfg.phase_coherence (1/2)

/-- `generateHeatmap` up to the issuing of the request: with no Tx node or
no RIS node it sets the error message and returns without a request
(leaving `heatmapData` as it was); otherwise it clears the error, sets
loading, and issues the request built from the first Tx and first RIS.
The asynchronous response handling is external to this step. -/
def generateHeatmap (cfg : AppConfig) (zoomOnRIS : Bool) (st : GenState) :
    GenState × Option HeatmapRequest :=
  match cfg.tx_nodes, cfg.ris_nodes with
  | [], _ => ({ st with error := some "Need at least 1 Tx and 1 RIS" }, none)
  | _ :: _, [] => ({ st with error := some "Need at least 1 Tx and 1 RIS" }, none)
  | tx :: _, ris :: _ =>
      ({ st with loading := true, error := none },
        some (buildHeatmapRequest tx ris cfg zoomOnRIS))

/-- The dashboard coloring of the average-gain statistic
(`heatmapData.avg_gain > 0 ? '#22c55e' : '#ef4444'` in the `Heatmap`
component's RIS Boost Verification card). -/
def avgGainColor (avg_gain : ℚ) : String :=
  if 0 < avg_gain then "#22c55e" else "#ef4444"

/-- RIS benefit, from the README's "RIS Benefit Calculation":
`RIS_Benefit (dB) = PL_direct - PL_RIS`. -/
def risBenefit (pl_direct pl_ris : ℝ) : ℝ := pl_direct - pl_ris

/-- Modelled from the spec: the backend channel combiner
(`backend/physics/channel.py`) is not under `src/`.  Spec 4.3/4.6:
`rx_power_dbm = tx_power_dbm − pathloss_db`. -/
def rxPowerDbm (tx_power_dbm pathloss_db : ℝ) : ℝ := tx_power_dbm - pathloss_db

/-- Modelled from the spec: the backend heatmap evaluator is not under
`src/`.  Spec 4.6: for each grid cell,
`gain = combined_power − direct_power`, with both powers derived from the
same Tx power and the respective path losses. -/
def cellGain (tx_power_dbm pl_direct pl_combined : ℝ) : ℝ :=
  rxPowerDbm tx_power_dbm pl_combined - rxPowerDbm tx_power_dbm pl_direct

/-- Modelled from the spec: the backend BUR evaluator (`/bur` endpoint,
`backend/main.py`) is not under `src/`.  Spec 4.6:
`BUR = (count of cells with gain > 0) / (total cells)` over the flattened
gain grid, expressed as a fraction. -/
def burOf (gains : List ℚ) : ℚ :=
  ((gains.countP fun g => decide (0 < g) : ℕ) : ℚ) / (gains.length : ℚ)

/-- Modelled from the spec: the backend free-space path-loss model
(`backend/physics/ellingson.py`) is not under `src/`.  Spec 4.1:
`PL = 20·log10(d) + 20·log10(f) + K` with a fixed unit constant `K`. -/
noncomputable def fsplDb (K d f : ℝ) : ℝ :=
  20 * Real.logb 10 d + 20 * Real.logb 10 f + K

/-! ## Waveform synthesizer (modelled from the spec) -/

/-- Modelled from the spec: the USRP emulator (`backend/physics/usrp.py`)
is not under `src/`.  Spec 4.5: the transmitted baseband tone is
`tx_I[i] = A·cos(2π·f_base·t[i])` with unit amplitude. -/
noncomputable def txSampleI (f_base t : ℝ) : ℝ := Real.cos (2 * Real.pi * f_base * t)

/-- Modelled from the spec: `tx_Q[i] = A·sin(2π·f_base·t[i])`, unit amplitude. -/
noncomputable def txSampleQ (f_base t : ℝ) : ℝ := Real.sin (2 * Real.pi * f_base * t)

/-- Modelled from the spec: amplitude scaling of the received waveform,
`10^(-effective_pathloss_db/20)` relative to Tx. -/
noncomputable def rxScale (pl_db : ℝ) : ℝ := (10 : ℝ) ^ (-(pl_db / 20))

/-- Modelled from the spec: the phase rotation accumulating the configured
carrier-frequency-offset over time, `θ(t) = 2π·cfo·t`. -/
noncomputable def cfoPhase (cfo t : ℝ) : ℝ := 2 * Real.pi * cfo * t

/-- Modelled from the spec: in-phase received sample — the transmitted
sample scaled by `rxScale` and rotated by the accumulated CFO phase, plus
additive noise when enabled. -/
noncomputable def rxSampleI (pl_db cfo f_base : ℝ) (noiseOn : Bool)
    (noiseI : ℝ → ℝ) (t : ℝ) : ℝ :=
  rxScale pl_db *
      (txSampleI f_base t * Real.cos (cfoPhase cfo t) -
        txSampleQ f_base t * Real.sin (cfoPhase cfo t)) +
    (if noiseOn then noiseI t else 0)

/-- Modelled from the spec: quadrature received sample, same structure. -/
noncomputable def rxSampleQ (pl_db cfo f_base : ℝ) (noiseOn : Bool)
    (noiseQ : ℝ → ℝ) (t : ℝ) : ℝ :=
  rxScale pl_db *
      (txSampleI f_base t * Real.sin (cfoPhase cfo t) +
        txSampleQ f_base t * Real.cos (cfoPhase cfo t)) +
    (if noiseOn then noiseQ t else 0)

/-- Index-aligned IQ buffer: `(t, real, imag)` sequences of equal length
(spec §3, `IQBuffer`). -/
structure IQBuffer where
  t : List ℝ
  re : List ℝ
  im : List ℝ

/-- Uniform sample-time axis for `n` samples at sample rate `fs`. -/
noncomputable def timeAxis (fs : ℝ) (n : ℕ) : List ℝ :=
  (List.range n).map fun i => (i : ℝ) / fs

/-- The synthesized transmit buffer over `n` samples. -/
noncomputable def txBuffer (f_base fs : ℝ) (n : ℕ) : IQBuffer where
  t := timeAxis fs n
  re := (timeAxis fs n).map (txSampleI f_base)
  im := (timeAxis fs n).map (txSampleQ f_base)

/-- The synthesized receive buffer over the same time axis. -/
noncomputable def rxBuffer (pl_db cfo f_base fs : ℝ) (noiseOn : Bool)
    (noiseI noiseQ : ℝ → ℝ) (n : ℕ) : IQBuffer where
  t := timeAxis fs n
  re := (timeAxis fs n).map (rxSampleI pl_db cfo f_base noiseOn noiseI)
  im := (timeAxis fs n).map (rxSampleQ pl_db cfo f_base noiseOn noiseQ)

/-! ## Mobility and snapshot processing -/

/-- The mobility modes offered by `ConfigPanel.jsx` (`MOBILITY_MODELS`). -/
inductive MobilityMode
  | static
  | randomWaypoint
  | gaussian

/-- Modelled from the spec: the backend mobility model
(`backend/physics/mobility.py`) is not under `src/`.  Spec 4.4: one tick of
the per-Rx state machine; under `static` there is no transition, under the
stochastic modes the position is advanced by the (here abstract) update
`f`. -/
def mobilityStep : MobilityMode → (Vec3 → Vec3) → Vec3 → Vec3
  | .static, _, p => p
  | .randomWaypoint, f, p => f p
  | .gaussian, f, p => f p

/-- The `ws.current.onmessage` handling of `rx_positions` in `App.jsx`:
only when the field is present and non-empty are the Rx nodes rewritten,
each taking `data.rx_positions[i] || rx.pos` (an out-of-range index is
`undefined`, hence falsy, and keeps the old position). -/
def applyRxPositions (rx_positions : Option (List Vec3)) (nodes : List RxNode) :
    List RxNode :=
  match rx_positions with
  | none => nodes
  | some ps =>
      if 0 < ps.length then
        nodes.mapIdx fun i rx => { rx with pos := ps[i]?.getD rx.pos }
      else nodes

/-! ## Reconfiguration merge -/

/-- Last occurrence of key `k` in an association list, matching JavaScript
object-spread semantics where a later duplicate key wins. -/
def lookupLastKey {V : Type} (k : String) : List (String × V) → Option V
  | [] => none
  | (k', v) :: rest =>
      match lookupLastKey k rest with
      | some v' => some v'
      | none => if k' = k then some v else none

/-- The configuration merge performed by `sendConfig`
(`{...prev, [key]: value}`) and `loadScenario` (`{...prev, ...freshConfig}`)
in `App.jsx`, with a configuration viewed as a key-to-value map: every key
named by the delta takes the delta's (last) value, every other key is taken
from the previous configuration.  The backend `Reconfigure` operation is
not under `src/`; per the spec (§6) it applies the same partial update. -/
def applyDelta {V : Type} (delta : List (String × V)) (c : String → Option V) :
    String → Option V :=
  fun k =>
    match lookupLastKey k delta with
    | some v => some v
    | none => c k

/-! ## Concrete inputs used by witnesses and counterexamples -/

/-- The initial config with the coherence and power sliders dragged to
their 0 endpoints (`ConfigPanel.jsx` offers `min="0"` on both). -/
noncomputable def zeroSliderConfig : AppConfig :=
  { initialConfig with phase_coherence := some 0, tx_power_dbm := some 0 }

/-- A component state with some heatmap already displayed. -/
def stDisplayed : GenState := ⟨some [[1]], none, false⟩

/-- The grid-extent formula as claim C10 words it:
`max(10, ⌈1.3·m⌉)` where `m` is the largest `|x|` or `|z|` over all
configured nodes — stated from the claim only, for comparison against
`getGridExtent` as the source defines it. -/
def claimedGridExtent (cfg : AppConfig) : ℚ :=
  max 10 ((⌈(13/10 : ℚ) * (((allPositions cfg).map nodeXZ).foldr max 0)⌉ : ℤ) : ℚ)

/-! ## Helper lemmas -/

/-- The `if dist > maxDist` accumulator step is the binary maximum. -/
theorem jsmax_eq_max (m d : ℚ) : (if m < d then d else m) = max m d := by
  rcases lt_or_ge m d with h | h
  · rw [if_pos h, max_eq_right h.le]
  · rw [if_neg (not_lt.mpr h), max_eq_left h]

/-- The starting value never decreases along the `getGridExtent` fold. -/
theorem init_le_foldl_max (l : List Vec3) (init : ℚ) :
    init ≤ l.foldl (fun m p => if m < nodeXZ p then nodeXZ p else m) init := by
  induction l generalizing init with
  | nil => exact le_refl _
  | cons a l ih =>
      simp only [List.foldl_cons]
      exact le_trans (by rw [jsmax_eq_max]; exact le_max_left _ _) (ih _)

/-- Every visited node's `max(|x|,|z|)` is bounded by the fold result. -/
theorem mem_le_foldl_max (p : Vec3) :
    ∀ (l : List Vec3) (init : ℚ), p ∈ l →
      nodeXZ p ≤ l.foldl (fun m q => if m < nodeXZ q then nodeXZ q else m) init := by
  intro l
  induction l with
  | nil => intro init h; cases h
  | cons a l ih =>
      intro init h
      simp only [List.foldl_cons]
      rcases List.mem_cons.mp h with h | h
      · subst h
        exact le_trans (by rw [jsmax_eq_max]; exact le_max_right _ _)
          (init_le_foldl_max l _)
      · exact ih _ h

theorem maxNodeDist_ge_ten (cfg : AppConfig) : 10 ≤ maxNodeDist cfg :=
  init_le_foldl_max _ _

theorem nodeXZ_le_maxNodeDist (cfg : AppConfig) (p : Vec3)
    (hp : p ∈ allPositions cfg) : nodeXZ p ≤ maxNodeDist cfg :=
  mem_le_foldl_max p _ _ hp

theorem maxNodeDist_le_ceil (cfg : AppConfig) :
    maxNodeDist cfg ≤ ((⌈(13/10 : ℚ) * maxNodeDist cfg⌉ : ℤ) : ℚ) := by
  have h10 := maxNodeDist_ge_ten cfg
  have hstep : maxNodeDist cfg ≤ (13/10 : ℚ) * maxNodeDist cfg := by nlinarith
  exact hstep.trans (Int.le_ceil _)

/-! ## Claim theorems -/

/-- C1: the sign convention is "positive means the RIS helps", used
consistently: the README's `ris_benefit = pathloss_direct − pathloss_ris`
is positive exactly when the RIS path has lower loss; the spec-modelled
per-cell heatmap gain equals the same direct-minus-combined difference and
is positive exactly when the RIS-assisted received power exceeds the
direct-only power; and the dashboard colors the average gain as a boost
exactly when it is positive. -/
theorem sign_convention_consistent (pl_direct pl_ris pl_combined txp : ℝ) (g : ℚ) :
    risBenefit pl_direct pl_ris = pl_direct - pl_ris
    ∧ (0 < risBenefit pl_direct pl_ris ↔ pl_ris < pl_direct)
    ∧ cellGain txp pl_direct pl_combined = risBenefit pl_direct pl_combined
    ∧ (0 < cellGain txp pl_direct pl_combined ↔
        rxPowerDbm txp pl_direct < rxPowerDbm txp pl_combined)
    ∧ (avgGainColor g = "#22c55e" ↔ 0 < g) := by
  refine ⟨rfl, sub_pos, by unfold cellGain rxPowerDbm risBenefit; ring, sub_pos, ?_⟩
  unfold avgGainColor
  by_cases h : 0 < g
  · rw [if_pos h]
    exact ⟨fun _ => h, fun _ => rfl⟩
  · rw [if_neg h]
    exact ⟨fun he => absurd he (by decide), fun hg => absurd hg h⟩

/-- C4: for every gain grid, the Beneficial-UE-Ratio lies in [0,1] and
equals exactly (number of cells with gain > 0) / (total cells). -/
theorem bur_unit_interval (gains : List ℚ) :
    0 ≤ burOf gains ∧ burOf gains ≤ 1
    ∧ burOf gains =
        ((gains.countP fun g => decide (0 < g) : ℕ) : ℚ) / (gains.length : ℚ) := by
  refine ⟨?_, ?_, rfl⟩
  · unfold burOf; positivity
  · unfold burOf
    rcases Nat.eq_zero_or_pos gains.length with h | h
    · simp [h]
    · rw [div_le_one (by exact_mod_cast h)]
      exact_mod_cast List.countP_le_length _

/-- C8: under static mobility a tick leaves the Rx position unchanged, and
a snapshot whose `rx_positions` field is absent or empty leaves every Rx
node of the session configuration unchanged. -/
theorem static_rx_positions_preserved (rp : Option (List Vec3))
    (nodes : List RxNode) (f : Vec3 → Vec3) (p : Vec3)
    (h : rp = none ∨ rp = some []) :
    applyRxPositions rp nodes = nodes ∧ mobilityStep .static f p = p := by
  refine ⟨?_, rfl⟩
  rcases h with h | h <;> subst h <;> simp [applyRxPositions]

/-- Witness for C8 at a concrete snapshot and node list. -/
theorem static_rx_positions_preserved_witness :
    applyRxPositions none [basicRx] = [basicRx]
    ∧ mobilityStep .static id ⟨0, 0, 0⟩ = ⟨0, 0, 0⟩ :=
  static_rx_positions_preserved none [basicRx] id ⟨0, 0, 0⟩ (Or.inl rfl)

/-- C9: reconfiguration is idempotent — applying the same key/value delta
twice in succession yields the same configuration as applying it once. -/
theorem reconfigure_idempotent {V : Type} (delta : List (String × V))
    (c : String → Option V) :
    applyDelta delta (applyDelta delta c) = applyDelta delta c := by
  funext k
  unfold applyDelta
  cases h : lookupLastKey k delta <;> simp [h]

/-- C2 (evaluating the code at the failing input): with the coherence and
power sliders at their 0 endpoints, the issued heatmap request carries the
substituted defaults `phase_coherence = 0.5` and `tx_power_dbm = 20`
instead of the configured zeros — the JavaScript `||` fallback treats a
configured 0 as absent. -/
theorem zero_config_values_substituted :
    ((generateHeatmap zeroSliderConfig false ⟨none, none, false⟩).2.map
        fun r => (r.phase_coherence, r.tx_power_dbm, r.frequency_ghz)) =
      some (1/2, 20, 7/2)
    ∧ (1/2 : ℚ) ≠ 0 ∧ (20 : ℚ) ≠ 0 := by
  refine ⟨?_, by norm_num, by norm_num⟩
  norm_num [generateHeatmap, zeroSliderConfig, initialConfig, buildHeatmapRequest,
    jsOrQ]

/-- C3: with no Tx node or no RIS node, heatmap generation sets the error
'Need at least 1 Tx and 1 RIS', issues no request, and leaves the
previously displayed heatmap data (and, trivially, the configuration it
only reads) unchanged; with both present a request is issued. -/
theorem heatmap_guard (cfg : AppConfig) (zoom : Bool) (st : GenState) :
    (cfg.tx_nodes = [] ∨ cfg.ris_nodes = [] →
      generateHeatmap cfg zoom st =
        ({ st with error := some "Need at least 1 Tx and 1 RIS" }, none))
    ∧ (cfg.tx_nodes ≠ [] → cfg.ris_nodes ≠ [] →
        ((generateHeatmap cfg zoom st).2).isSome = true)
    ∧ ((generateHeatmap cfg zoom st).1).heatmapData = st.heatmapData := by
  unfold generateHeatmap
  rcases htx : cfg.tx_nodes with _ | ⟨tx, txs⟩ <;>
    rcases hris : cfg.ris_nodes with _ | ⟨ris, riss⟩ <;> simp

/-- Witness for C3: the empty config fails the guard with the error and no
request while the displayed data survives; the basic scenario proceeds. -/
theorem heatmap_guard_witness :
    (generateHeatmap emptyConfig false stDisplayed =
        ({ stDisplayed with error := some "Need at least 1 Tx and 1 RIS" }, none))
    ∧ ((generateHeatmap basicScenarioCfg false stDisplayed).2).isSome = true :=
  ⟨(heatmap_guard emptyConfig false stDisplayed).1 (Or.inl rfl),
    (heatmap_guard basicScenarioCfg false stDisplayed).2.1
      (List.cons_ne_nil _ _) (List.cons_ne_nil _ _)⟩

/-- C5: free-space path loss `20·log10(d) + 20·log10(f) + K` is strictly
increasing in distance for every fixed frequency f > 0 and strictly
increasing in frequency for every fixed distance d > 0. -/
theorem fspl_strict_monotone (K d d1 d2 f f1 f2 : ℝ) (hd : 0 < d)
    (hd1 : 0 < d1) (hd12 : d1 < d2) (hf : 0 < f) (hf1 : 0 < f1)
    (hf12 : f1 < f2) :
    fsplDb K d1 f < fsplDb K d2 f ∧ fsplDb K d f1 < fsplDb K d f2 := by
  have hb : (1 : ℝ) < 10 := by norm_num
  constructor
  · have h := Real.logb_lt_logb hb hd1 hd12
    unfold fsplDb; linarith
  · have h := Real.logb_lt_logb hb hf1 hf12
    unfold fsplDb; linarith

/-- Witness for C5 at d = 1 < 2 and f = 1 < 2 with K = 0. -/
theorem fspl_strict_monotone_witness :
    fsplDb 0 1 1 < fsplDb 0 2 1 ∧ fsplDb 0 1 1 < fsplDb 0 1 2 :=
  fspl_strict_monotone 0 1 1 2 1 1 2 (by norm_num) (by norm_num) (by norm_num)
    (by norm_num) (by norm_num) (by norm_num)

/-- C6 counterexample: the initial session configuration sets
`ris_bits: 2`, not the claimed 0, and neither it nor the basic preset sets
any `phase_coherence` key, so neither equals the claimed 1.0. -/
theorem basic_preset_counterexample :
    initialConfig.ris_bits = some 2
    ∧ initialConfig.ris_bits ≠ some 0
    ∧ initialConfig.phase_coherence = none
    ∧ basicScenarioCfg.ris_bits = none
    ∧ basicScenarioCfg.phase_coherence = none :=
  ⟨rfl, by decide, rfl, rfl, rfl⟩

/-- C6 amended: the basic preset and the initial session configuration
match the spec's example geometry exactly — Tx `BS-1` at (0,5,0) with
20 dBm, Rx `UE-1` at (5,1.5,5), RIS `RIS-1` at (2.5,2.5,2.5) with 40
elements, frequency 3.5 GHz — but the initial configuration carries
`ris_bits = 2` (2-bit quantization) rather than 0, and neither object
carries a `phase_coherence` key (the UI then falls back to 0.5, not 1.0);
the preset also carries no `ris_bits` key. -/
theorem basic_preset_amended :
    initialConfig.tx_nodes = [⟨"BS-1", ⟨0, 5, 0⟩, 20⟩]
    ∧ initialConfig.rx_nodes = [⟨"UE-1", ⟨5, 3/2, 5⟩⟩]
    ∧ initialConfig.ris_nodes.map (·.pos) = [⟨5/2, 5/2, 5/2⟩]
    ∧ initialConfig.ris_nodes.map (·.elements) = [some 40]
    ∧ initialConfig.frequency_ghz = some (7/2)
    ∧ initialConfig.ris_bits = some 2
    ∧ initialConfig.phase_coherence = none
    ∧ basicScenarioCfg.tx_nodes = initialConfig.tx_nodes
    ∧ basicScenarioCfg.rx_nodes = initialConfig.rx_nodes
    ∧ basicScenarioCfg.ris_nodes.map (·.pos) = [⟨5/2, 5/2, 5/2⟩]
    ∧ basicScenarioCfg.ris_nodes.map (·.elements) = [some 40]
    ∧ basicScenarioCfg.frequency_ghz = some (7/2)
    ∧ basicScenarioCfg.ris_bits = none
    ∧ basicScenarioCfg.phase_coherence = none :=
  ⟨rfl, rfl, rfl, rfl, rfl, rfl, rfl, rfl, rfl, rfl, rfl, rfl, rfl, rfl⟩

/-- C7: with zero effective path loss, noise disabled and zero
carrier-frequency offset, the synthesized receive buffer equals the
transmit buffer sample-for-sample, over the same time axis, for every
sample count. -/
theorem waveform_roundtrip (f_base fs : ℝ) (n : ℕ) (noiseI noiseQ : ℝ → ℝ) :
    rxBuffer 0 0 f_base fs false noiseI noiseQ n = txBuffer f_base fs n := by
  have hscale : rxScale 0 = 1 := by
    unfold rxScale
    norm_num
  have hI : ∀ t, rxSampleI 0 0 f_base false noiseI t = txSampleI f_base t := by
    intro t
    unfold rxSampleI cfoPhase
    simp [hscale]
  have hQ : ∀ t, rxSampleQ 0 0 f_base false noiseQ t = txSampleQ f_base t := by
    intro t
    unfold rxSampleQ cfoPhase
    simp [hscale]
  unfold rxBuffer txBuffer
  rw [funext hI, funext hQ]

/-- C10 counterexample: at the basic scenario in full view the source's
`getGridExtent` returns ⌈1.3·max(10, m)⌉ = 13, not the claimed
max(10, ⌈1.3·m⌉) = 10 (here m = 5, the largest |x| or |z| over the
configured nodes). -/
theorem grid_extent_counterexample :
    getGridExtent basicScenarioCfg false = 13
    ∧ claimedGridExtent basicScenarioCfg = 10
    ∧ (13 : ℚ) ≠ 10 := by
  refine ⟨?_, ?_, by norm_num⟩
  · have hmax : maxNodeDist basicScenarioCfg = 10 := by
      simp only [maxNodeDist, allPositions, basicScenarioCfg, basicTx, basicRx,
        basicRIS, List.map_cons, List.map_nil, List.cons_append, List.nil_append,
        List.append_nil, List.foldl_cons, List.foldl_nil, nodeXZ]
      norm_num [max_def, abs_of_nonneg]
    unfold getGridExtent
    rw [hmax]
    norm_num
  · unfold claimedGridExtent
    have h5 : (((allPositions basicScenarioCfg).map nodeXZ).foldr max 0) = 5 := by
      simp only [allPositions, basicScenarioCfg, basicTx, basicRx, basicRIS,
        List.map_cons, List.map_nil, List.cons_append, List.nil_append,
        List.append_nil, List.foldr_cons, List.foldr_nil, nodeXZ]
      norm_num [max_def, abs_of_nonneg]
    rw [h5, show (⌈(13/10 : ℚ) * 5⌉ = 7) from by rw [Int.ceil_eq_iff] <;> norm_num]
    norm_num [max_def]

/-- C10 amended: every issued heatmap request fixes grid_size = 80 and
height = 1.5; its grid_extent is exactly 5 when zoom-on-RIS is active, and
otherwise equals ⌈1.3·max(10, m)⌉ where m is the largest |x| or |z| over
all configured nodes (the source applies the 1.3 factor and the ceiling
after clamping to 10, not the claimed max(10, ⌈1.3·m⌉)) — so in full view
the extent is at least 13 and every configured node lies inside
[-extent, extent] on both horizontal axes. -/
theorem heatmap_request_grid_constants (cfg : AppConfig) (zoom : Bool)
    (st : GenState) (tx : TxNode) (txs : List TxNode) (ris : RISNode)
    (riss : List RISNode) (htx : cfg.tx_nodes = tx :: txs)
    (hris : cfg.ris_nodes = ris :: riss) :
    (generateHeatmap cfg zoom st).2 = some (buildHeatmapRequest tx ris cfg zoom)
    ∧ (buildHeatmapRequest tx ris cfg zoom).grid_size = 80
    ∧ (buildHeatmapRequest tx ris cfg zoom).height = 3/2
    ∧ (zoom = true → (buildHeatmapRequest tx ris cfg zoom).grid_extent = 5)
    ∧ (zoom = false →
        (buildHeatmapRequest tx ris cfg zoom).grid_extent =
            ((⌈(13/10 : ℚ) * maxNodeDist cfg⌉ : ℤ) : ℚ)
          ∧ 13 ≤ (buildHeatmapRequest tx ris cfg zoom).grid_extent
          ∧ ((allPositions cfg).all fun p =>
                decide (nodeXZ p ≤ (buildHeatmapRequest tx ris cfg zoom).grid_extent)) =
              true) := by
  have hne : cfg.ris_nodes.isEmpty = false := by rw [hris]; rfl
  refine ⟨?_, rfl, rfl, ?_, ?_⟩
  · unfold generateHeatmap
    rw [htx, hris]
  · intro hz
    subst hz
    simp [buildHeatmapRequest, getGridExtent, hne]
  · intro hz
    subst hz
    have hext : (buildHeatmapRequest tx ris cfg false).grid_extent =
        ((⌈(13/10 : ℚ) * maxNodeDist cfg⌉ : ℤ) : ℚ) := by
      simp [buildHeatmapRequest, getGridExtent]
    refine ⟨hext, ?_, ?_⟩
    · rw [hext]
      have h10 := maxNodeDist_ge_ten cfg
      have h13 : (13 : ℚ) ≤ (13/10 : ℚ) * maxNodeDist cfg := by nlinarith
      exact h13.trans (Int.le_ceil _)
    · rw [List.all_eq_true]
      intro p hp
      rw [decide_eq_true_eq, hext]
      exact (nodeXZ_le_maxNodeDist cfg p hp).trans (maxNodeDist_le_ceil cfg)

/-- Witness for C10 at the basic scenario in full view, all hypotheses and
case splits discharged. -/
theorem heatmap_request_grid_constants_witness :
    (generateHeatmap basicScenarioCfg false ⟨none, none, false⟩).2 =
        some (buildHeatmapRequest basicTx basicRIS basicScenarioCfg false)
    ∧ (buildHeatmapRequest basicTx basicRIS basicScenarioCfg false).grid_size = 80
    ∧ (buildHeatmapRequest basicTx basicRIS basicScenarioCfg false).height = 3/2
    ∧ (buildHeatmapRequest basicTx basicRIS basicScenarioCfg false).grid_extent =
        ((⌈(13/10 : ℚ) * maxNodeDist basicScenarioCfg⌉ : ℤ) : ℚ)
    ∧ 13 ≤ (buildHeatmapRequest basicTx basicRIS basicScenarioCfg false).grid_extent
    ∧ ((allPositions basicScenarioCfg).all fun p =>
          decide (nodeXZ p ≤
            (buildHeatmapRequest basicTx basicRIS basicScenarioCfg false).grid_extent)) =
        true := by
  have h := heatmap_request_grid_constants basicScenarioCfg false ⟨none, none, false⟩
    basicTx [] basicRIS [] rfl rfl
  exact ⟨h.1, h.2.1, h.2.2.1, (h.2.2.2.2 rfl).1, (h.2.2.2.2 rfl).2.1,
    (h.2.2.2.2 rfl).2.2⟩

end RISSim
